import Mathlib

/-!
Verification of the Media-Processing-Pipeline remediation core
(`src/lambda/pii_processor.py`) against its specification.

The Python module is embedded shallowly:

* Inbound EventBridge payloads become typed records (`Event`, `FindingDetail`,
  `ResourceRef`, ...) in which a missing dictionary key is `Option.none`,
  mirroring `dict.get`.
* The AWS clients (S3, SSM, EventBridge) become an `Env` of oracles: each
  external call either succeeds (`Except.ok`) or raises (`Except.error msg`),
  chosen arbitrarily by the environment.  Every embedded function additionally
  returns the list of external calls it attempted (`List Call`), in order, so
  that temporal claims (alert after remediation, no delete of the original)
  can be stated.  Entering the remediation engine emits the
  `Call.engineInvoked` marker.
* Python `try/except` blocks become pattern matches on the oracle results;
  `raise` becomes returning `Except.error` to the caller.
* Python truthiness in `if bucket_name and object_key` is modelled exactly:
  both `None` and the empty string are falsy.
-/

namespace PiiProcessor

/-- `s3Object` sub-record of a Macie resource: `{bucketName, key}`. -/
structure S3ObjectRef where
  bucketName : Option String
  key : Option String
deriving Repr, DecidableEq

/-- One entry of `detail.resources`. -/
structure ResourceRef where
  resourceType : Option String
  s3Object : Option S3ObjectRef
deriving Repr, DecidableEq

/-- The `severity` sub-record: `{description}`. -/
structure SeverityField where
  description : Option String
deriving Repr, DecidableEq

/-- The `detail` payload of the EventBridge event. -/
structure FindingDetail where
  id : Option String
  severity : Option SeverityField
  type : Option String
  resources : Option (List ResourceRef)
deriving Repr, DecidableEq

/-- The inbound EventBridge event envelope. -/
structure Event where
  source : Option String
  detail : Option FindingDetail
deriving Repr, DecidableEq

/-- Result dictionary of one sub-action (quarantine or tag).  Keys absent
from the Python dict are `none`. -/
structure ActionRes where
  action : String
  status : String
  quarantine_location : Option String
  tags_applied : Option (List (String × String))
  error : Option String
deriving Repr, DecidableEq

/-- Per-resource result dictionary built by `handle_pii_in_s3_object`. -/
structure ActionResult where
  bucket : String
  key : String
  severity : String
  actions : List ActionRes
  error : Option String
deriving Repr, DecidableEq

/-- Result dictionary built by `process_macie_finding`. -/
structure ProcessingResult where
  finding_id : Option String
  severity : String
  type : Option String
  actions_taken : List ActionResult
  timestamp : String
deriving Repr, DecidableEq

/-- The `result` field of a 200 response body: either the engine's
`ProcessingResult` or the `{"processed": false, "reason": ...}` dictionary. -/
inductive ResultPayload where
  | finding (r : ProcessingResult)
  | skipped (processed : Bool) (reason : String)
deriving Repr, DecidableEq

/-- Response body: `{message, result, timestamp}` on 200,
`{error, message, timestamp}` on 500. -/
inductive ResponseBody where
  | success (message : String) (result : ResultPayload) (timestamp : String)
  | failure (error : String) (message : String) (timestamp : String)
deriving Repr, DecidableEq

/-- The handler's response envelope. -/
structure Response where
  statusCode : Nat
  body : ResponseBody
deriving Repr, DecidableEq

/-- One attempted external call, recorded in program order.  `deleteObject`
is an operation the S3 client offers but the module never issues; it is in
the alphabet so that "the original object is never deleted" is a statement
about the trace, not a vacuity of the type. -/
inductive Call where
  | getParams (path : String)
  | copy (srcBucket srcKey dstBucket dstKey sse metadataDirective : String)
      (metadata : List (String × String))
  | putAcl (bucket key acl : String)
  | putTagging (bucket key : String) (tags : List (String × String))
  | publish (source detailType : String)
  | deleteObject (bucket key : String)
  | engineInvoked
deriving Repr, DecidableEq

/-- The external world: environment variables, clocks, and the outcome each
AWS call would have if attempted. -/
structure Env where
  osEnviron : String → Option String
  now : String
  today : String
  s3_copy_object : String → String → String → Except String Unit
  s3_put_object_acl : String → String → Except String Unit
  s3_put_object_tagging : String → String → Except String Unit
  ssm_get_parameters_by_path : String → Except String (List (String × String))
  events_put_events : Except String Unit

/-- `severity in ['HIGH', 'CRITICAL']` (used at lines 138 and 170). -/
def isHighSeverity (s : String) : Bool :=
  s == "HIGH" || s == "CRITICAL"

/-- `detail.get('severity', {}).get('description', 'UNKNOWN')` (line 106). -/
def extract_severity (detail : Option FindingDetail) : String :=
  match detail with
  | none => "UNKNOWN"
  | some d =>
    match d.severity with
    | none => "UNKNOWN"
    | some s => s.description.getD "UNKNOWN"

/-- The metadata dictionary attached to the quarantine copy (lines 211-215). -/
def quarantineMetadata (env : Env) (object_key : String) : List (String × String) :=
  [("quarantine-reason", "PII-detected"),
   ("quarantine-timestamp", env.now),
   ("original-key", object_key)]

/-- Embedding of `quarantine_object` (lines 187-240): copy the object to
`quarantine/<key>` in the same bucket with AES256 encryption and replaced
metadata, then set the copy's ACL to private; any raised error is caught and
returned as a failed result. -/
def quarantine_object (env : Env) (bucket_name object_key : String)
    (config : List (String × String)) : ActionRes × List Call :=
  let quarantine_key := "quarantine/" ++ object_key
  let copyCall := Call.copy bucket_name object_key bucket_name quarantine_key
      "AES256" "REPLACE" (quarantineMetadata env object_key)
  match env.s3_copy_object bucket_name object_key quarantine_key with
  | .error e => (⟨"quarantine", "failed", none, none, some e⟩, [copyCall])
  | .ok _ =>
    let aclCall := Call.putAcl bucket_name quarantine_key "private"
    match env.s3_put_object_acl bucket_name quarantine_key with
    | .error e => (⟨"quarantine", "failed", none, none, some e⟩, [copyCall, aclCall])
    | .ok _ =>
      (⟨"quarantine", "success",
         some (bucket_name ++ "/" ++ quarantine_key), none, none⟩,
       [copyCall, aclCall])

/-- The tag dictionary applied to a flagged object (lines 255-260). -/
def piiTags (env : Env) (severity : String) : List (String × String) :=
  [("pii-detected", "true"),
   ("pii-severity", severity.toLower),
   ("pii-detection-date", env.today),
   ("security-status", "flagged")]

/-- Embedding of `tag_object_with_pii_info` (lines 242-285). -/
def tag_object_with_pii_info (env : Env) (bucket_name object_key severity : String) :
    ActionRes × List Call :=
  let tags := piiTags env severity
  let tagCall := Call.putTagging bucket_name object_key tags
  match env.s3_put_object_tagging bucket_name object_key with
  | .error e => (⟨"tag", "failed", none, none, some e⟩, [tagCall])
  | .ok _ => (⟨"tag", "success", none, some tags, none⟩, [tagCall])

/-- Embedding of `handle_pii_in_s3_object` (lines 143-185).  The two
sub-actions return failure as data (they catch internally), so the outer
`except` branch that would set the `error` key is unreachable and the field
stays `none`. -/
def handle_pii_in_s3_object (env : Env) (bucket_name object_key severity : String)
    (config : List (String × String)) : ActionResult × List Call :=
  if isHighSeverity severity then
    let q := quarantine_object env bucket_name object_key config
    let t := tag_object_with_pii_info env bucket_name object_key severity
    (⟨bucket_name, object_key, severity, [q.1, t.1], none⟩, q.2 ++ t.2)
  else
    let t := tag_object_with_pii_info env bucket_name object_key severity
    (⟨bucket_name, object_key, severity, [t.1], none⟩, t.2)

/-- The loop over `affected_resources` (lines 122-135).  A resource is acted
on only when `resourceType == 'S3Object'` and both `bucketName` and `key`
are truthy (present and non-empty, per Python truthiness). -/
def process_resources (env : Env) (config : List (String × String))
    (severity : String) : List ResourceRef → List ActionResult × List Call
  | [] => ([], [])
  | r :: rs =>
    let rest := process_resources env config severity rs
    if r.resourceType == some "S3Object" then
      match (r.s3Object.getD ⟨none, none⟩).bucketName,
            (r.s3Object.getD ⟨none, none⟩).key with
      | some b, some k =>
        if b != "" && k != "" then
          let h := handle_pii_in_s3_object env b k severity config
          (h.1 :: rest.1, h.2 ++ rest.2)
        else rest
      | _, _ => rest
    else rest

/-- Embedding of `send_high_severity_alert` (lines 287-320): attempt one
`put_events` publish; any failure is logged and swallowed. -/
def send_high_severity_alert (env : Env) (result : ProcessingResult)
    (config : List (String × String)) : Unit × List Call :=
  let pubCall := Call.publish "media-processing-pipeline.security"
      "High Severity PII Detection"
  match env.events_put_events with
  | .ok _ => ((), [pubCall])
  | .error _ => ((), [pubCall])

/-- Embedding of `process_macie_finding` (lines 93-141). -/
def process_macie_finding (env : Env) (event : Event)
    (config : List (String × String)) : ProcessingResult × List Call :=
  let detail := event.detail
  let severity := extract_severity detail
  let affected_resources := (detail.bind (fun d => d.resources)).getD []
  let rt := process_resources env config severity affected_resources
  let result : ProcessingResult :=
    ⟨detail.bind (fun d => d.id), severity, detail.bind (fun d => d.type),
     rt.1, env.now⟩
  if isHighSeverity severity then
    let a := send_high_severity_alert env result config
    (result, Call.engineInvoked :: (rt.2 ++ a.2))
  else
    (result, Call.engineInvoked :: rt.2)

/-- The Parameter Store path `/{project_name}/{environment}` (lines 69-72),
with both environment variables defaulted when absent. -/
def parameter_path (env : Env) : String :=
  "/" ++ (env.osEnviron "PROJECT_NAME").getD "media-processing-pipeline"
      ++ "/" ++ (env.osEnviron "ENVIRONMENT").getD "dev"

/-- Embedding of `get_configuration` (lines 62-91): fetch parameters under
the namespace path, strip the path from each name (Python `str.replace`
replaces every occurrence, as does `String.replace`); a fetch failure is
re-raised to the caller. -/
def get_configuration (env : Env) :
    Except String (List (String × String)) × List Call :=
  let path := parameter_path env
  match env.ssm_get_parameters_by_path path with
  | .ok params =>
    (.ok (params.map (fun p => (p.1.replace (path ++ "/") "", p.2))),
     [Call.getParams path])
  | .error e => (.error e, [Call.getParams path])

/-- Embedding of `lambda_handler` (lines 18-60).  The only fallible step
inside the `try` block is the configuration fetch (the remediation engine is
total, as proved below), so the `except` branch fires exactly on a failed
fetch and maps it to a 500 envelope. -/
def lambda_handler (env : Env) (event : Event) : Response × List Call :=
  match get_configuration env with
  | (.error e, t) =>
    (⟨500, .failure "Event processing failed" e env.now⟩, t)
  | (.ok config, t) =>
    if event.source == some "aws.macie2" then
      let rt := process_macie_finding env event config
      (⟨200, .success "Event processed successfully" (.finding rt.1) env.now⟩,
       t ++ rt.2)
    else
      (⟨200, .success "Event processed successfully"
          (.skipped false "Unknown event source") env.now⟩, t)

/-- Did an `Except` computation succeed? -/
def exOk : Except String Unit → Bool
  | .ok _ => true
  | .error _ => false

/-- Trace predicate: the call is the alert publish. -/
def isPublish : Call → Bool
  | .publish _ _ => true
  | _ => false

/-- Trace predicate: the call is the engine-entry marker. -/
def isEngineInvoked : Call → Bool
  | .engineInvoked => true
  | _ => false

/-- Trace predicate: the call deletes an object. -/
def isDelete : Call → Bool
  | .deleteObject _ _ => true
  | _ => false

/-- Does the call mutate (write to, restrict, overwrite or delete) the object
at the given bucket and key?  A `copy` mutates only its destination; being
the *source* of a copy is not a mutation. -/
def mutates (bucket key : String) : Call → Bool
  | .copy _ _ db dk _ _ _ => db == bucket && dk == key
  | .putAcl b k _ => b == bucket && k == key
  | .putTagging b k _ => b == bucket && k == key
  | .deleteObject b k => b == bucket && k == key
  | _ => false

/-- The bucket/key pair the loop body would act on, if any: `resourceType`
must equal `'S3Object'` and both identifiers must be truthy. -/
def actionableOf (r : ResourceRef) : Option (String × String) :=
  if r.resourceType == some "S3Object" then
    match (r.s3Object.getD ⟨none, none⟩).bucketName,
          (r.s3Object.getD ⟨none, none⟩).key with
    | some b, some k => if b != "" && k != "" then some (b, k) else none
    | _, _ => none
  else none

/-- The actionable resources of an event, in their original order. -/
def actionable_resources (event : Event) : List (String × String) :=
  ((event.detail.bind (fun d => d.resources)).getD []).filterMap actionableOf

/-- A recorded sub-action either succeeded, or failed with its error message
captured in the result. -/
def actionResOk (a : ActionRes) : Bool :=
  a.status == "success" || (a.status == "failed" && a.error.isSome)

/-- Environment in which every external call succeeds. -/
def okEnv : Env :=
  ⟨fun _ => none, "2026-10-12T00:00:00", "2026-10-12",
   fun _ _ _ => .ok (), fun _ _ => .ok (), fun _ _ => .ok (),
   fun _ => .ok [], .ok ()⟩

/-- Environment in which the quarantine copy is rejected but everything else
succeeds. -/
def copyFailEnv : Env :=
  { okEnv with s3_copy_object := fun _ _ _ => .error "copy denied" }

/-- Environment in which every external call fails. -/
def allFailEnv : Env :=
  ⟨fun _ => none, "2026-10-12T00:00:00", "2026-10-12",
   fun _ _ _ => .error "copy denied", fun _ _ => .error "acl denied",
   fun _ _ => .error "tagging denied",
   fun _ => .error "ssm unreachable", .error "bus down"⟩

/-- A one-resource CRITICAL event, as in the spec's worked scenario. -/
def sampleEvent : Event :=
  ⟨some "aws.macie2",
   some ⟨some "finding-1", some ⟨some "CRITICAL"⟩, some "SensitiveData:S3Object/Personal",
     some [⟨some "S3Object", some ⟨some "media", some "reports/a.csv"⟩⟩]⟩⟩

/-- Trace predicate: the call is one of the three per-resource remediation
operations (copy, ACL restriction, tagging). -/
def isRemediationCall : Call → Bool
  | .copy .. => true
  | .putAcl .. => true
  | .putTagging .. => true
  | _ => false

/-- The quarantine prefix never maps a key to itself. -/
lemma quarantine_key_ne (k : String) : ("quarantine/" ++ k) ≠ k := by
  intro h
  have h2 := congrArg String.length h
  rw [String.length_append] at h2
  simp at h2
  exact (by decide : ¬ ("quarantine/".length = 0)) h2

/-- Every call attempted by `quarantine_object` is a remediation call. -/
lemma quarantine_trace_remediation (env : Env) (b k : String)
    (cfg : List (String × String)) :
    ∀ c ∈ (quarantine_object env b k cfg).2, isRemediationCall c = true := by
  unfold quarantine_object
  dsimp only
  split
  · simp [isRemediationCall]
  · split
    · simp [isRemediationCall]
    · simp [isRemediationCall]

/-- Every call attempted by `tag_object_with_pii_info` is a remediation call. -/
lemma tag_trace_remediation (env : Env) (b k sev : String) :
    ∀ c ∈ (tag_object_with_pii_info env b k sev).2, isRemediationCall c = true := by
  unfold tag_object_with_pii_info
  dsimp only
  split
  · simp [isRemediationCall]
  · simp [isRemediationCall]

/-- Every call attempted by `handle_pii_in_s3_object` is a remediation call. -/
lemma handle_trace_remediation (env : Env) (b k sev : String)
    (cfg : List (String × String)) :
    ∀ c ∈ (handle_pii_in_s3_object env b k sev cfg).2, isRemediationCall c = true := by
  unfold handle_pii_in_s3_object
  by_cases h : isHighSeverity sev
  · intro c hc
    simp only [h, if_true, List.mem_append] at hc
    rcases hc with hc | hc
    · exact quarantine_trace_remediation env b k cfg c hc
    · exact tag_trace_remediation env b k sev c hc
  · intro c hc
    simp only [h, if_false, Bool.false_eq_true] at hc
    exact tag_trace_remediation env b k sev c hc

/-- One step of the resource loop, phrased through `actionableOf`. -/
lemma process_resources_cons (env : Env) (cfg : List (String × String))
    (sev : String) (r : ResourceRef) (rs : List ResourceRef) :
    process_resources env cfg sev (r :: rs)
      = match actionableOf r with
        | some bk =>
          ((handle_pii_in_s3_object env bk.1 bk.2 sev cfg).1
             :: (process_resources env cfg sev rs).1,
           (handle_pii_in_s3_object env bk.1 bk.2 sev cfg).2
             ++ (process_resources env cfg sev rs).2)
        | none => process_resources env cfg sev rs := by
  conv_lhs => rw [process_resources]
  unfold actionableOf
  by_cases hT : (r.resourceType == some "S3Object") = true
  · simp only [hT, if_true]
    rcases hb : (r.s3Object.getD ⟨none, none⟩).bucketName with _ | b
    · simp [hb]
    · rcases hk : (r.s3Object.getD ⟨none, none⟩).key with _ | k
      · simp [hb, hk]
      · by_cases htr : (b != "" && k != "") = true
        · simp [hb, hk, htr]
        · simp [hb, hk, htr]
  · simp [hT]

/-- Every call attempted by the resource loop is a remediation call. -/
lemma process_resources_trace_remediation (env : Env)
    (cfg : List (String × String)) (sev : String) :
    ∀ rs : List ResourceRef,
      ∀ c ∈ (process_resources env cfg sev rs).2, isRemediationCall c = true := by
  intro rs
  induction rs with
  | nil => intro c hc; simp [process_resources] at hc
  | cons r rs ih =>
    intro c hc
    rw [process_resources_cons] at hc
    rcases ha : actionableOf r with _ | bk
    · rw [ha] at hc
      exact ih c hc
    · rw [ha] at hc
      simp only [List.mem_append] at hc
      rcases hc with hc | hc
      · exact handle_trace_remediation env bk.1 bk.2 sev cfg c hc
      · exact ih c hc

/-- A remediation call is neither a publish, nor the engine marker, nor a
delete. -/
lemma isRemediationCall_classify (c : Call) (h : isRemediationCall c = true) :
    isPublish c = false ∧ isEngineInvoked c = false ∧ isDelete c = false := by
  cases c <;> simp_all [isRemediationCall, isPublish, isEngineInvoked, isDelete]

/-- The resource loop never publishes. -/
lemma process_resources_no_publish (env : Env) (cfg : List (String × String))
    (sev : String) (rs : List ResourceRef) :
    (process_resources env cfg sev rs).2.countP isPublish = 0 := by
  rw [List.countP_eq_zero]
  intro c hc
  simp only [Bool.not_eq_true]
  exact (isRemediationCall_classify c
    (process_resources_trace_remediation env cfg sev rs c hc)).1

/-- The results collected by the loop are exactly the handler outcomes of the
actionable resources, in order. -/
lemma process_resources_fst (env : Env) (cfg : List (String × String))
    (sev : String) :
    ∀ rs : List ResourceRef,
      (process_resources env cfg sev rs).1
        = (rs.filterMap actionableOf).map
            (fun bk => (handle_pii_in_s3_object env bk.1 bk.2 sev cfg).1) := by
  intro rs
  induction rs with
  | nil => rfl
  | cons r rs ih =>
    rw [List.filterMap_cons, process_resources_cons]
    rcases ha : actionableOf r with _ | bk
    · simpa using ih
    · simpa using ih

/-- A quarantine outcome is always well-formed: success, or failure with the
error captured. -/
lemma quarantine_actionResOk (env : Env) (b k : String)
    (cfg : List (String × String)) :
    actionResOk (quarantine_object env b k cfg).1 = true := by
  unfold quarantine_object
  dsimp only
  split
  · simp [actionResOk]
  · split
    · simp [actionResOk]
    · simp [actionResOk]

/-- A tagging outcome is always well-formed: success, or failure with the
error captured. -/
lemma tag_actionResOk (env : Env) (b k sev : String) :
    actionResOk (tag_object_with_pii_info env b k sev).1 = true := by
  unfold tag_object_with_pii_info
  dsimp only
  split
  · simp [actionResOk]
  · simp [actionResOk]

/-- A per-resource outcome never records an escaped exception, and each of
its sub-actions is well-formed. -/
lemma handle_result_ok (env : Env) (b k sev : String)
    (cfg : List (String × String)) :
    (handle_pii_in_s3_object env b k sev cfg).1.error = none
    ∧ ((handle_pii_in_s3_object env b k sev cfg).1.actions.all actionResOk) = true := by
  unfold handle_pii_in_s3_object
  by_cases h : isHighSeverity sev
  · simp [h, quarantine_actionResOk, tag_actionResOk]
  · simp [h, tag_actionResOk]

/-- The alert procedure attempts exactly one publish, whatever the bus does. -/
lemma send_alert_trace (env : Env) (r : ProcessingResult)
    (cfg : List (String × String)) :
    (send_high_severity_alert env r cfg).2
      = [Call.publish "media-processing-pipeline.security"
          "High Severity PII Detection"] := by
  unfold send_high_severity_alert
  dsimp only
  split
  · rfl
  · rfl

/-- The result record built by `process_macie_finding`, in closed form. -/
lemma process_macie_finding_result (env : Env) (event : Event)
    (config : List (String × String)) :
    (process_macie_finding env event config).1
      = ⟨event.detail.bind (fun d => d.id), extract_severity event.detail,
         event.detail.bind (fun d => d.type),
         (process_resources env config (extract_severity event.detail)
            ((event.detail.bind (fun d => d.resources)).getD [])).1,
         env.now⟩ := by
  unfold process_macie_finding
  dsimp only
  by_cases h : isHighSeverity (extract_severity event.detail)
  · simp [h]
  · simp [h]

/-- The trace of `process_macie_finding`, in closed form: the engine marker,
then the loop's remediation calls, then the publish exactly when severity is
HIGH or CRITICAL. -/
lemma process_macie_finding_trace (env : Env) (event : Event)
    (config : List (String × String)) :
    (process_macie_finding env event config).2
      = Call.engineInvoked
          :: ((process_resources env config (extract_severity event.detail)
                ((event.detail.bind (fun d => d.resources)).getD [])).2
             ++ (if isHighSeverity (extract_severity event.detail)
                 then [Call.publish "media-processing-pipeline.security"
                     "High Severity PII Detection"]
                 else [])) := by
  unfold process_macie_finding
  dsimp only
  by_cases h : isHighSeverity (extract_severity event.detail)
  · simp [h, send_alert_trace]
  · simp [h]

/-- Every outcome collected by the loop is well-formed: no escaped exception
and every sub-action either succeeded or recorded its error. -/
lemma process_resources_all_ok (env : Env) (cfg : List (String × String))
    (sev : String) (rs : List ResourceRef) :
    ((process_resources env cfg sev rs).1.all
      (fun ar => ar.error == none && ar.actions.all actionResOk)) = true := by
  rw [process_resources_fst, List.all_eq_true]
  intro ar har
  rw [List.mem_map] at har
  obtain ⟨bk, _, rfl⟩ := har
  have h := handle_result_ok env bk.1 bk.2 sev cfg
  simp [h.1, h.2]

/-- The resource loop is oblivious to the event-bus oracle. -/
lemma process_resources_events_irrel (env : Env) (f : Except String Unit)
    (cfg : List (String × String)) (sev : String) (rs : List ResourceRef) :
    process_resources { env with events_put_events := f } cfg sev rs
      = process_resources env cfg sev rs := by
  induction rs with
  | nil => rfl
  | cons r rs ih =>
    rw [process_resources_cons, process_resources_cons, ih]
    rcases actionableOf r with _ | bk
    · rfl
    · rfl

/-- C1: for every detection event, configuration snapshot and behaviour of
the external services, `process_macie_finding` returns a `ProcessingResult`
with one outcome per actionable resource — no failure of a per-resource
action removes that resource's entry or those of the remaining resources —
and every failed sub-action is captured inside the resource's result (status
`failed` with the error recorded) rather than escaping as an exception. -/
theorem process_macie_finding_never_aborts (env : Env) (event : Event)
    (config : List (String × String)) :
    (process_macie_finding env event config).1.actions_taken.length
      = (actionable_resources event).length
    ∧ ((process_macie_finding env event config).1.actions_taken.all
        (fun ar => ar.error == none && ar.actions.all actionResOk)) = true := by
  rw [process_macie_finding_result]
  constructor
  · rw [process_resources_fst]
    simp [actionable_resources]
  · exact process_resources_all_ok env config (extract_severity event.detail) _

/-- C2: for every actionable OBJECT resource, the recorded outcome is the
quarantine attempt followed by the tag attempt when severity is HIGH or
CRITICAL, and the tag attempt alone otherwise; the tag outcome is computed
from the tagging oracle (and clock) alone, so its status does not depend on
whether the quarantine succeeded. -/
theorem handle_quarantine_then_tag (env : Env) (b k sev : String)
    (cfg : List (String × String)) :
    ((handle_pii_in_s3_object env b k sev cfg).1.actions
      = if isHighSeverity sev
        then [(quarantine_object env b k cfg).1,
              (tag_object_with_pii_info env b k sev).1]
        else [(tag_object_with_pii_info env b k sev).1])
    ∧ (quarantine_object env b k cfg).1.action = "quarantine"
    ∧ (tag_object_with_pii_info env b k sev).1.action = "tag"
    ∧ (∀ env2 : Env, env2.s3_put_object_tagging = env.s3_put_object_tagging →
        env2.today = env.today →
        (tag_object_with_pii_info env2 b k sev).1
          = (tag_object_with_pii_info env b k sev).1) := by
  refine ⟨?_, ?_, ?_, ?_⟩
  · unfold handle_pii_in_s3_object
    by_cases h : isHighSeverity sev
    · simp [h]
    · simp [h]
  · unfold quarantine_object
    dsimp only
    split
    · rfl
    · split
      · rfl
      · rfl
  · unfold tag_object_with_pii_info
    dsimp only
    split
    · rfl
    · rfl
  · intro env2 h1 h2
    unfold tag_object_with_pii_info piiTags
    rw [h1, h2]

/-- C2 witness: on a concrete HIGH finding both attempts are recorded, and a
failing quarantine copy leaves the tag outcome unchanged. -/
theorem handle_quarantine_then_tag_witness :
    (handle_pii_in_s3_object okEnv "media" "reports/a.csv" "HIGH" []).1.actions
      = [(quarantine_object okEnv "media" "reports/a.csv" []).1,
         (tag_object_with_pii_info okEnv "media" "reports/a.csv" "HIGH").1]
    ∧ (tag_object_with_pii_info copyFailEnv "media" "reports/a.csv" "HIGH").1
        = (tag_object_with_pii_info okEnv "media" "reports/a.csv" "HIGH").1 := by
  have h := handle_quarantine_then_tag okEnv "media" "reports/a.csv" "HIGH" []
  constructor
  · rw [h.1]
    rfl
  · exact h.2.2.2 copyFailEnv rfl rfl

/-- C7: the outcomes recorded in `actions_taken` are exactly the per-resource
outcomes of the actionable resources (`resourceType = 'S3Object'` with both
identifiers truthy), in the resource list's original order; any other
resource contributes no entry. -/
theorem actions_taken_matches_actionable (env : Env) (event : Event)
    (config : List (String × String)) :
    (process_macie_finding env event config).1.actions_taken
      = (actionable_resources event).map
          (fun bk => (handle_pii_in_s3_object env bk.1 bk.2
              (extract_severity event.detail) config).1) := by
  rw [process_macie_finding_result]
  exact process_resources_fst env config (extract_severity event.detail) _

/-- C8: the severity recorded by the engine is the total extraction
`extract_severity`, which yields `UNKNOWN` whenever the detail, the severity
field, or its description is absent — it never fails and never produces a
missing value. -/
theorem severity_defaults_to_unknown (env : Env) (event : Event)
    (config : List (String × String)) :
    ((process_macie_finding env event config).1.severity
       = extract_severity event.detail)
    ∧ extract_severity none = "UNKNOWN"
    ∧ (∀ d : FindingDetail, d.severity = none →
        extract_severity (some d) = "UNKNOWN")
    ∧ (∀ d : FindingDetail, ∀ s : SeverityField, d.severity = some s →
        s.description = none → extract_severity (some d) = "UNKNOWN") := by
  refine ⟨?_, rfl, ?_, ?_⟩
  · rw [process_macie_finding_result]
  · intro d hd
    simp [extract_severity, hd]
  · intro d s hd hs
    simp [extract_severity, hd, hs]

/-- C8 witness: a payload with no detail, and one whose severity record has
no description, both map to UNKNOWN. -/
theorem severity_defaults_to_unknown_witness :
    (process_macie_finding okEnv ⟨none, none⟩ []).1.severity = "UNKNOWN"
    ∧ extract_severity (some ⟨none, some ⟨none⟩, none, none⟩) = "UNKNOWN" := by
  have h := severity_defaults_to_unknown okEnv ⟨none, none⟩ []
  constructor
  · rw [h.1]
    rfl
  · exact h.2.2.2 ⟨none, some ⟨none⟩, none, none⟩ ⟨none⟩ rfl rfl

/-- C9: however the event-bus publish behaves (including failing), the
`ProcessingResult` returned by the engine is unchanged, and the alert
procedure still completes, attempting exactly one publish — its failure is
swallowed inside `send_high_severity_alert` and never reaches the caller. -/
theorem alert_failure_never_observed (env : Env) (event : Event)
    (config : List (String × String)) (f : Except String Unit)
    (r : ProcessingResult) :
    ((process_macie_finding { env with events_put_events := f } event config).1
       = (process_macie_finding env event config).1)
    ∧ (send_high_severity_alert { env with events_put_events := f } r config).2
        = [Call.publish "media-processing-pipeline.security"
            "High Severity PII Detection"] := by
  constructor
  · rw [process_macie_finding_result, process_macie_finding_result,
        process_resources_events_irrel]
  · exact send_alert_trace _ r config

/-- C3: for every processed event, a publish is attempted exactly once when
severity is HIGH or CRITICAL and never otherwise (in particular never for
LOW, MEDIUM or UNKNOWN), and when it happens it is the last call of the
trace — strictly after every per-resource remediation call. -/
theorem alert_once_after_remediation (env : Env) (event : Event)
    (config : List (String × String)) :
    ((process_macie_finding env event config).2.countP isPublish
       = if isHighSeverity (extract_severity event.detail) then 1 else 0)
    ∧ (isHighSeverity (extract_severity event.detail) = true →
        ∃ t : List Call,
          (process_macie_finding env event config).2
            = t ++ [Call.publish "media-processing-pipeline.security"
                "High Severity PII Detection"]
          ∧ t.countP isPublish = 0) := by
  constructor
  · rw [process_macie_finding_trace]
    by_cases h : isHighSeverity (extract_severity event.detail)
    · simp [h, List.countP_cons, List.countP_append, isPublish,
        process_resources_no_publish, isEngineInvoked]
    · simp [h, List.countP_cons, List.countP_append, isPublish,
        process_resources_no_publish, isEngineInvoked]
  · intro h
    refine ⟨Call.engineInvoked
      :: (process_resources env config (extract_severity event.detail)
            ((event.detail.bind (fun d => d.resources)).getD [])).2, ?_, ?_⟩
    · rw [process_macie_finding_trace, h]
      simp
    · simp [List.countP_cons, isPublish, process_resources_no_publish]

/-- C3 witness: on the concrete CRITICAL sample event the publish happens
exactly once and closes the trace. -/
theorem alert_once_after_remediation_witness :
    (process_macie_finding okEnv sampleEvent []).2.countP isPublish = 1
    ∧ ∃ t : List Call,
        (process_macie_finding okEnv sampleEvent []).2
          = t ++ [Call.publish "media-processing-pipeline.security"
              "High Severity PII Detection"]
        ∧ t.countP isPublish = 0 := by
  have h := alert_once_after_remediation okEnv sampleEvent []
  constructor
  · rw [h.1]
    rfl
  · exact h.2 rfl

/-- C4: `quarantine_object` attempts the same-bucket copy to
`quarantine/<key>` with AES256 server-side encryption and REPLACE-mode
metadata (fixed reason, fresh timestamp, original key), follows a successful
copy with a private ACL on the copy, and does nothing else: it never
deletes, and never writes to the original object.  It reports success, with
location `bucket/quarantine/key`, exactly when both calls succeed, and every
failure is returned as a failed result carrying the error. -/
theorem quarantine_copies_then_restricts (env : Env) (b k : String)
    (cfg : List (String × String)) :
    ((quarantine_object env b k cfg).2
       = Call.copy b k b ("quarantine/" ++ k) "AES256" "REPLACE"
           (quarantineMetadata env k)
         :: (if exOk (env.s3_copy_object b k ("quarantine/" ++ k))
             then [Call.putAcl b ("quarantine/" ++ k) "private"] else []))
    ∧ ((quarantine_object env b k cfg).1.status
        = if exOk (env.s3_copy_object b k ("quarantine/" ++ k))
              && exOk (env.s3_put_object_acl b ("quarantine/" ++ k))
          then "success" else "failed")
    ∧ ((quarantine_object env b k cfg).1.quarantine_location
        = if exOk (env.s3_copy_object b k ("quarantine/" ++ k))
              && exOk (env.s3_put_object_acl b ("quarantine/" ++ k))
          then some (b ++ "/" ++ ("quarantine/" ++ k)) else none)
    ∧ (((quarantine_object env b k cfg).1.status == "success")
         || (quarantine_object env b k cfg).1.error.isSome) = true
    ∧ ((quarantine_object env b k cfg).2.all (fun c => !(isDelete c))) = true
    ∧ ((quarantine_object env b k cfg).2.all (fun c => !(mutates b k c))) = true := by
  have hq : (("quarantine/" ++ k) == k) = false :=
    beq_eq_false_iff_ne.mpr (quarantine_key_ne k)
  unfold quarantine_object
  dsimp only
  rcases h1 : env.s3_copy_object b k ("quarantine/" ++ k) with e | u
  · simp [h1, exOk, isDelete, mutates, hq]
  · rcases h2 : env.s3_put_object_acl b ("quarantine/" ++ k) with e | u
    · simp [h1, h2, exOk, isDelete, mutates, hq]
    · simp [h1, h2, exOk, isDelete, mutates, hq]

/-- C5: when the configuration fetch succeeds, any event whose source is
not `aws.macie2` yields a 200 response whose result is
`{processed: false, reason: "Unknown event source"}`, and the remediation
engine is never entered. -/
theorem unknown_source_skipped (env : Env) (event : Event)
    (ps : List (String × String))
    (hcfg : env.ssm_get_parameters_by_path (parameter_path env) = .ok ps)
    (hsrc : event.source ≠ some "aws.macie2") :
    (lambda_handler env event).1
      = ⟨200, .success "Event processed successfully"
          (.skipped false "Unknown event source") env.now⟩
    ∧ (lambda_handler env event).2.countP isEngineInvoked = 0 := by
  have hs : (event.source == some "aws.macie2") = false :=
    beq_eq_false_iff_ne.mpr hsrc
  unfold lambda_handler get_configuration
  dsimp only
  rw [hcfg]
  simp [hs, List.countP_cons, isEngineInvoked]

/-- C5 witness: a concrete event from `other.tool` under a healthy
configuration store is skipped with the recorded reason. -/
theorem unknown_source_skipped_witness :
    (lambda_handler okEnv ⟨some "other.tool", none⟩).1
      = ⟨200, .success "Event processed successfully"
          (.skipped false "Unknown event source") "2026-10-12T00:00:00"⟩
    ∧ (lambda_handler okEnv ⟨some "other.tool", none⟩).2.countP isEngineInvoked = 0 := by
  have h := unknown_source_skipped okEnv ⟨some "other.tool", none⟩ [] rfl
    (by decide)
  exact h

/-- C6: when the configuration fetch raises, the handler returns a 500
response whose body carries the (non-empty) error marker, the failure
message and a timestamp, and the remediation engine is never entered. -/
theorem config_failure_yields_500 (env : Env) (event : Event) (e : String)
    (hcfg : env.ssm_get_parameters_by_path (parameter_path env) = .error e) :
    (lambda_handler env event).1
      = ⟨500, .failure "Event processing failed" e env.now⟩
    ∧ "Event processing failed" ≠ ""
    ∧ (lambda_handler env event).2.countP isEngineInvoked = 0 := by
  unfold lambda_handler get_configuration
  dsimp only
  rw [hcfg]
  refine ⟨rfl, by decide, ?_⟩
  simp [List.countP_cons, isEngineInvoked]

/-- C6 witness: with the parameter store unreachable, the concrete Macie
event is answered with the 500 envelope and the engine marker is absent. -/
theorem config_failure_yields_500_witness :
    (lambda_handler allFailEnv sampleEvent).1
      = ⟨500, .failure "Event processing failed" "ssm unreachable"
          "2026-10-12T00:00:00"⟩
    ∧ (lambda_handler allFailEnv sampleEvent).2.countP isEngineInvoked = 0 := by
  have h := config_failure_yields_500 allFailEnv sampleEvent "ssm unreachable" rfl
  exact ⟨h.1, h.2.2⟩

/-- C10: the configuration fetch is the handler's first external action for
every event, so when it raises, even an event whose source is not
`aws.macie2` is answered with the 500 failure envelope rather than the 200
"Unknown event source" outcome. -/
theorem config_fetch_precedes_source_check (env : Env) (event : Event)
    (e : String)
    (hcfg : env.ssm_get_parameters_by_path (parameter_path env) = .error e)
    (hsrc : event.source ≠ some "aws.macie2") :
    (lambda_handler env event).1.statusCode = 500
    ∧ (lambda_handler env event).1.body
        = .failure "Event processing failed" e env.now
    ∧ (∀ event2 : Event, (lambda_handler env event2).2.head?
        = some (Call.getParams (parameter_path env))) := by
  refine ⟨?_, ?_, ?_⟩
  · unfold lambda_handler get_configuration
    dsimp only
    rw [hcfg]
  · unfold lambda_handler get_configuration
    dsimp only
    rw [hcfg]
  · intro event2
    unfold lambda_handler get_configuration
    dsimp only
    rcases h : env.ssm_get_parameters_by_path (parameter_path env) with e2 | ps
    · simp [h]
    · by_cases hs : (event2.source == some "aws.macie2") = true
      · simp [h, hs]
      · simp [h, hs]

/-- C10 witness: a non-Macie event under an unreachable parameter store is
answered 500, and the first attempted call is the parameter fetch. -/
theorem config_fetch_precedes_source_check_witness :
    (lambda_handler allFailEnv ⟨some "other.tool", none⟩).1.statusCode = 500
    ∧ (lambda_handler allFailEnv ⟨some "other.tool", none⟩).1.body
        = .failure "Event processing failed" "ssm unreachable"
            "2026-10-12T00:00:00"
    ∧ (lambda_handler allFailEnv sampleEvent).2.head?
        = some (Call.getParams "/media-processing-pipeline/dev") := by
  have h := config_fetch_precedes_source_check allFailEnv
    ⟨some "other.tool", none⟩ "ssm unreachable" rfl (by decide)
  exact ⟨h.1, h.2.1, h.2.2 sampleEvent⟩

end PiiProcessor
